import Mathlib

/-!
Verification of the hotlabel-infra task-serving and quality-control core.

Shallow embedding of:
  * `src/api/middleware/rate_limiting.py` (`RateLimitMiddleware._check_rate_limit`)
  * `src/api/services/task_management.py` (`get_next_task`, `submit_task_result`,
    `get_task_batch`)
  * `src/api/services/quality_assurance.py` (`validate_label_quality`)
  * `src/api/services/user_profiling.py` (`initialize_user_session`)

Modelling conventions:
  * Redis sorted-set members for a rate-limit key are the strings `str(now)`
    for integer seconds `now`; since `str` is injective on integers we model the
    member set as a `Finset Nat` of timestamps.  `zremrangebyscore key 0 w` +
    `zcard` + `zadd key (str now) now` + `expire` becomes trim / card / insert.
  * Python floats written in the source (0.2, 0.3, 0.8, 0.5, 0.9, 1.0 and the
    reward thresholds) are embedded as rationals, i.e. the real-arithmetic
    semantics of the scoring algorithm.
  * Freshly generated UUIDs (`task_id`, `validation_id`) are taken as explicit
    parameters; the Redis state an operation reads is passed in as an argument
    and the state it writes is returned.
-/

namespace HotLabel

/-! ### Rate limiter (`src/api/middleware/rate_limiting.py`) -/

/-- Result triple of `_check_rate_limit`: `(is_rate_limited, remaining, reset_time)`. -/
structure CheckResult where
  is_rate_limited : Bool
  remaining : Nat
  reset_time : Nat
deriving Repr, DecidableEq

/-- `zremrangebyscore key 0 (now - window)`: keep exactly the members whose
timestamp is strictly greater than `now - window`, i.e. `now < t + window`. -/
def trimWindow (store : Finset Nat) (window now : Nat) : Finset Nat :=
  store.filter (fun t => now < t + window)

/-- Body of `_check_rate_limit` when Redis is available (lines 105-132):
trim the window, count the remaining members, add the current timestamp,
and compute the result triple. -/
def check_rate_limit_core (store : Finset Nat) (limit window now : Nat) :
    CheckResult × Finset Nat :=
  let trimmed := trimWindow store window now
  let request_count := trimmed.card
  let newStore := insert now trimmed
  let is_rate_limited := decide (limit ≤ request_count)
  let remaining := limit - request_count - 1
  let reset_time := if 60 < window then window - now % window else window
  (⟨is_rate_limited, remaining, reset_time⟩, newStore)

/-- `_check_rate_limit` (lines 94-132) including the fail-open branch: when
`redis_pool is None` the request is allowed with `(False, limit, window)`
and the store is untouched. -/
def check_rate_limit (redis_pool : Option Unit) (store : Finset Nat)
    (limit window now : Nat) : CheckResult × Finset Nat :=
  match redis_pool with
  | none => (⟨false, limit, window⟩, store)
  | some _ => check_rate_limit_core store limit window now

/-- Store evolution across a sequence of checks (each request mutates the
sorted set whether or not it is allowed). -/
def runStore (limit window : Nat) : List Nat → Finset Nat → Finset Nat
  | [], store => store
  | t :: ts, store => runStore limit window ts (check_rate_limit_core store limit window t).2

/-- The `i`-th check of a run at timestamps `ts`, starting from an empty key:
it executes against the store produced by the first `i` calls. -/
def stepResult (limit window : Nat) (ts : List Nat) (i : Nat) (h : i < ts.length) :
    CheckResult × Finset Nat :=
  check_rate_limit_core (runStore limit window (ts.take i) ∅) limit window (ts.get ⟨i, h⟩)

lemma core_limited (S : Finset Nat) (L W t : Nat) :
    (check_rate_limit_core S L W t).1.is_rate_limited = decide (L ≤ (trimWindow S W t).card) :=
  rfl

lemma core_reset (S : Finset Nat) (L W t : Nat) :
    (check_rate_limit_core S L W t).1.reset_time = if 60 < W then W - t % W else W :=
  rfl

lemma core_snd (S : Finset Nat) (L W t : Nat) :
    (check_rate_limit_core S L W t).2 = insert t (trimWindow S W t) :=
  rfl

/-! ### Data model of the task pipeline -/

/-- User profile JSON stored at `user:profile:...` as read by `get_next_task`
via `.get(...)` with defaults; fields are optional because the JSON may omit
them. -/
structure ProfileData where
  language : Option String
  expertise_level : Option String
  max_complexity : Option Nat
deriving Repr, DecidableEq

/-- `TaskContent` model (`src/api/models/task.py`). -/
structure TaskContent where
  image_url : String
  question : String
deriving Repr, DecidableEq

/-- `TaskResponse` view returned to the caller of `get_next_task`. -/
structure TaskResponse where
  task_id : String
  task_type : String
  content : TaskContent
  options : List String
  time_estimate_seconds : Nat
  complexity_level : Nat
  golden_set : Bool
deriving Repr, DecidableEq

/-- The JSON assignment record stored at `task:{task_id}` by `get_next_task`
and read back by `validate_label_quality` / `submit_task_result`. -/
structure TaskRecord where
  task_id : String
  task_type : String
  golden_set : Bool
  expected_answer : Option String
  publisher_id : String
  session_id : String
  complexity_level : Nat
deriving Repr, DecidableEq

/-- `ValidationResponse` model (`src/api/models/quality.py`). -/
structure ValidationResponse where
  validation_id : String
  quality_score : Rat
  validation_method : String
  issues_detected : List String
  confidence : String
  feedback : String
deriving Repr, DecidableEq

/-- `Reward` model (`src/api/models/task.py`). -/
structure Reward where
  type : String
  duration_seconds : Option Nat
deriving Repr, DecidableEq

/-- `TaskSubmissionResponse` model (`src/api/models/task.py`). -/
structure TaskSubmissionResponse where
  success : Bool
  reward : Reward
  quality_score : Rat
  next_task_available : Bool
deriving Repr, DecidableEq

/-- `TaskSummary` model used by `get_task_batch`. -/
structure TaskSummary where
  task_id : String
  task_type : String
  content : TaskContent
  options : List String
  complexity_level : Nat
deriving Repr, DecidableEq

/-- `UserProfile` model as created by `initialize_user_session`
(`src/api/models/user.py`, `src/api/services/user_profiling.py`). -/
structure UserProfile where
  language : String
  expertise_level : String
  task_preferences : List String
  max_complexity : Nat
deriving Repr, DecidableEq

/-! ### `src/api/services/user_profiling.py` -/

/-- `initialize_user_session` (lines 21-92): builds the fresh profile from the
client info and initializes the `user:tasks_completed:{session_id}` counter to
the string `"0"`.  Returns `(profile, counter value)`. -/
def initialize_user_session (client_language : String) (device_type : String) :
    UserProfile × String :=
  let language := (client_language.splitOn "-").headD client_language
  let task_preferences := if device_type == "mobile" then ["vqa"] else ["vqa", "text_classification"]
  ({ language := language
     expertise_level := "beginner"
     task_preferences := task_preferences
     max_complexity := 2 }, "0")

/-- Redis `INCR` on the `user:tasks_completed:{session_id}` key (performed by
`submit_task_result`): the stored value is always the canonical decimal
rendering `toString n` of a count `n` (initialized to `"0"`), and `INCR`
replaces it by the decimal rendering of `n + 1`. -/
def incr_tasks_completed (n : Nat) : String :=
  toString (n + 1)

/-- Serialization of the profile JSON stored by `initialize_user_session`
as later deserialized by `get_next_task` (every field is present). -/
def profile_data_of (p : UserProfile) : ProfileData :=
  { language := some p.language
    expertise_level := some p.expertise_level
    max_complexity := some p.max_complexity }

/-! ### `src/api/services/task_management.py` -/

/-- `get_next_task` (lines 19-114).  Inputs: the profile JSON found at
`user:profile:{publisher_id}:{session_id}` (or `none`), the raw string at
`user:tasks_completed:{session_id}` (or `none`), the freshly generated UUID,
the identifiers and the optional request filters.  Output: the `TaskResponse`
handed to the caller together with the assignment record written to
`task:{task_id}`, or `none` when the profile is missing. -/
def get_next_task (profile : Option ProfileData) (tasks_completed : Option String)
    (task_id : String) (session_id publisher_id : String)
    (language website_category previous_task_id : Option String) :
    Option (TaskResponse × TaskRecord) :=
  match profile with
  | none => none
  | some user_profile =>
    let user_language := language.getD (user_profile.language.getD "en")
    let user_expertise := user_profile.expertise_level.getD "beginner"
    let max_complexity := user_profile.max_complexity.getD 2
    let complexity_level := min max_complexity 3
    let golden_set := user_expertise == "beginner" && tasks_completed == some "0"
    let task : TaskResponse :=
      { task_id := task_id
        task_type := "vqa"
        content :=
          { image_url := "https://storage.hotlabel.io/samples/image" ++ task_id ++ ".jpg"
            question := "What color is the car in this image?" }
        options := ["Red", "Blue", "Green", "Yellow"]
        time_estimate_seconds := 5
        complexity_level := complexity_level
        golden_set := golden_set }
    let record : TaskRecord :=
      { task_id := task_id
        task_type := "vqa"
        golden_set := golden_set
        expected_answer := if golden_set then some "Blue" else none
        publisher_id := publisher_id
        session_id := session_id
        complexity_level := complexity_level }
    some (task, record)

/-! ### `src/api/services/quality_assurance.py` -/

/-- `validate_label_quality` (lines 19-125).  Input: the assignment record
found at `task:{task_id}` (or `none` when missing/expired), the fresh
validation id, the submitted response, the reported time spent, and the
validation method chosen by the caller. -/
def validate_label_quality (task_record : Option TaskRecord) (validation_id : String)
    (response : String) (time_spent_ms : Int) (validation_type : String) :
    ValidationResponse :=
  match task_record with
  | none =>
    { validation_id := validation_id
      quality_score := 0.2
      validation_method := "unknown"
      issues_detected := ["task_not_found"]
      confidence := "low"
      feedback := "Task not found or expired" }
  | some task_data =>
    let scored : Rat × List String × String :=
      if validation_type == "golden_set" && task_data.golden_set then
        match task_data.expected_answer with
        | some expected_answer =>
          if response == expected_answer then
            (1.0, [], "Correct response matches expected answer")
          else
            (0.3, ["incorrect_golden_set_answer"], "Response does not match expected answer")
        | none =>
          (0.3, ["incorrect_golden_set_answer"], "Response does not match expected answer")
      else if validation_type == "consensus" then
        if time_spent_ms < 500 then
          (0.8 * 0.5, ["suspiciously_fast_response"], "Response time was suspiciously fast")
        else if time_spent_ms > 30000 then
          (0.8 * 0.9, ["slow_response"], "Response time was slower than expected")
        else
          (0.8, [], "")
      else
        (0.8, [], "")
    let confidence := if validation_type == "golden_set" then "high" else "medium"
    { validation_id := validation_id
      quality_score := scored.1
      validation_method := validation_type
      issues_detected := scored.2.1
      confidence := confidence
      feedback := scored.2.2 }

/-- Reward tier chain of `submit_task_result` (lines 170-179), evaluated
top-down, first match wins. -/
def reward_duration_for (quality_score : Rat) : Nat :=
  if 0.9 ≤ quality_score then 7200
  else if 0.8 ≤ quality_score then 5400
  else if 0.7 ≤ quality_score then 3600
  else 1800

/-- `submit_task_result` (lines 116-207).  Input: the assignment record found
at `task:{task_id}` (or `none`), the fresh validation id and the submission
fields.  On a missing record it short-circuits with `success := false` and a
reward of type `"none"`; otherwise it validates (golden-set iff the record is
golden), computes a reward tier and succeeds. -/
def submit_task_result (task_record : Option TaskRecord) (validation_id : String)
    (response : String) (time_spent_ms : Int) : TaskSubmissionResponse :=
  match task_record with
  | none =>
    { success := false
      reward := { type := "none", duration_seconds := none }
      quality_score := 0.0
      next_task_available := true }
  | some task_data =>
    let validation_result :=
      validate_label_quality (some task_data) validation_id response time_spent_ms
        (if task_data.golden_set then "golden_set" else "consensus")
    let reward_duration := reward_duration_for validation_result.quality_score
    { success := true
      reward := { type := "content_access", duration_seconds := some reward_duration }
      quality_score := validation_result.quality_score
      next_task_available := true }

/-- `get_task_batch` (lines 209-274): builds exactly `count` task summaries
whose complexity level is derived from the `complexity` filter string; the
per-task UUIDs are modelled by the loop index. -/
def get_task_batch (publisher_id : String) (count : Nat)
    (language category complexity : Option String) : List TaskSummary :=
  let complexity_level :=
    if complexity == some "medium" then 2
    else if complexity == some "high" then 3
    else 1
  (List.range count).map (fun i =>
    { task_id := toString i
      task_type := "vqa"
      content :=
        { image_url := "https://storage.hotlabel.io/samples/image" ++ toString i ++ ".jpg"
          question := "What color is the car in this image?" }
      options := ["Red", "Blue", "Green", "Yellow"]
      complexity_level := complexity_level })

/-! ### Theorems -/

/-- C7: for every request, when the shared store is unreachable
(`redis_pool is None`), the rate-limit check allows the request (returns
not-limited) instead of blocking it, and leaves the store untouched. -/
theorem rate_limiter_fails_open (store : Finset Nat) (limit window now : Nat) :
    (check_rate_limit none store limit window now).1.is_rate_limited = false ∧
    (check_rate_limit none store limit window now).2 = store :=
  ⟨rfl, rfl⟩

/-- C8: for every rate-limit check with window `window` and current integer
time `now`, the returned reset time equals `window - now % window` when
`window > 60`, and equals `window` verbatim otherwise. -/
theorem reset_time_computation (store : Finset Nat) (limit window now : Nat) :
    (60 < window →
      (check_rate_limit_core store limit window now).1.reset_time = window - now % window) ∧
    (window ≤ 60 →
      (check_rate_limit_core store limit window now).1.reset_time = window) := by
  constructor
  · intro h
    rw [core_reset, if_pos h]
  · intro h
    rw [core_reset, if_neg (not_lt.mpr h)]

/-- Witness for C8 at window 120 / now 50 and window 60 / now 50. -/
theorem reset_time_computation_witness :
    (check_rate_limit_core ∅ 5 120 50).1.reset_time = 120 - 50 % 120 ∧
    (check_rate_limit_core ∅ 5 60 50).1.reset_time = 60 :=
  ⟨(reset_time_computation ∅ 5 120 50).1 (by norm_num),
   (reset_time_computation ∅ 5 60 50).2 (by norm_num)⟩

/-- C6: for every submission whose task assignment record is missing or
expired, the response has `success = false` and a reward of type `"none"`
with no duration (no reward tier is computed); and the validator fallback
for a missing assignment scores 0.2 with issue `task_not_found`, method
`"unknown"` and confidence `"low"`. -/
theorem missing_assignment_short_circuits (vid resp : String) (t : Int) (vt : String) :
    (submit_task_result none vid resp t).success = false ∧
    (submit_task_result none vid resp t).reward.type = "none" ∧
    (submit_task_result none vid resp t).reward.duration_seconds = none ∧
    (validate_label_quality none vid resp t vt).quality_score = 0.2 ∧
    (validate_label_quality none vid resp t vt).validation_method = "unknown" ∧
    (validate_label_quality none vid resp t vt).issues_detected = ["task_not_found"] ∧
    (validate_label_quality none vid resp t vt).confidence = "low" :=
  ⟨rfl, rfl, rfl, rfl, rfl, rfl, rfl⟩

/-- C5: reward tiers are inclusive thresholds evaluated top-down, first match
wins: duration 7200 for `q ≥ 0.9`, 5400 for `0.8 ≤ q < 0.9`, 3600 for
`0.7 ≤ q < 0.8`, 1800 otherwise; and `submit_task_result` awards exactly this
tier of the validation score whenever the assignment record exists. -/
theorem reward_tiers (q : Rat) :
    ((0.9 : Rat) ≤ q → reward_duration_for q = 7200) ∧
    ((0.8 : Rat) ≤ q → q < 0.9 → reward_duration_for q = 5400) ∧
    ((0.7 : Rat) ≤ q → q < 0.8 → reward_duration_for q = 3600) ∧
    (q < (0.7 : Rat) → reward_duration_for q = 1800) ∧
    (∀ (rec : TaskRecord) (vid resp : String) (t : Int),
      (submit_task_result (some rec) vid resp t).reward =
        ⟨"content_access", some (reward_duration_for
          (validate_label_quality (some rec) vid resp t
            (if rec.golden_set then "golden_set" else "consensus")).quality_score)⟩) := by
  refine ⟨?_, ?_, ?_, ?_, fun rec vid resp t => rfl⟩ <;>
    · unfold reward_duration_for
      split_ifs <;> intros <;> first | rfl | linarith

/-- Witness for C5 at the spec's sample scores 0.9, 0.89999 and 0.5. -/
theorem reward_tiers_witness :
    reward_duration_for 0.9 = 7200 ∧ reward_duration_for 0.89999 = 5400 ∧
    reward_duration_for 0.5 = 1800 :=
  ⟨(reward_tiers 0.9).1 (by norm_num),
   (reward_tiers 0.89999).2.1 (by norm_num) (by norm_num),
   (reward_tiers 0.5).2.2.2.1 (by norm_num)⟩

/-- C3: for every submission validated against an existing golden-set
assignment (validation method `"golden_set"`), the quality score is 1.0 with
no issues when the response equals the stored expected answer, and otherwise
0.3 with issue `incorrect_golden_set_answer`; the result's confidence is
`"high"`. -/
theorem golden_set_scoring (rec : TaskRecord) (vid resp e : String) (t : Int)
    (hg : rec.golden_set = true) (he : rec.expected_answer = some e) :
    (resp = e →
      (validate_label_quality (some rec) vid resp t "golden_set").quality_score = 1 ∧
      (validate_label_quality (some rec) vid resp t "golden_set").issues_detected = []) ∧
    (resp ≠ e →
      (validate_label_quality (some rec) vid resp t "golden_set").quality_score = 0.3 ∧
      (validate_label_quality (some rec) vid resp t "golden_set").issues_detected =
        ["incorrect_golden_set_answer"]) ∧
    (validate_label_quality (some rec) vid resp t "golden_set").confidence = "high" := by
  refine ⟨?_, ?_, ?_⟩
  · intro hr
    subst hr
    constructor <;> · simp [validate_label_quality, hg, he]; try norm_num
  · intro hr
    have hb : (resp == e) = false := beq_eq_false_iff_ne.mpr hr
    constructor <;> · simp [validate_label_quality, hg, he, hb]; try norm_num
  · simp [validate_label_quality, hg]

/-- Witness for C3: matching answer scores 1, mismatching scores 0.3. -/
theorem golden_set_scoring_witness :
    (validate_label_quality (some ⟨"t1", "vqa", true, some "Blue", "p1", "s1", 2⟩)
      "v1" "Blue" 1000 "golden_set").quality_score = 1 ∧
    (validate_label_quality (some ⟨"t1", "vqa", true, some "Blue", "p1", "s1", 2⟩)
      "v1" "Red" 1000 "golden_set").quality_score = 0.3 :=
  ⟨((golden_set_scoring ⟨"t1", "vqa", true, some "Blue", "p1", "s1", 2⟩
      "v1" "Blue" "Blue" 1000 rfl rfl).1 rfl).1,
   ((golden_set_scoring ⟨"t1", "vqa", true, some "Blue", "p1", "s1", 2⟩
      "v1" "Red" "Blue" 1000 rfl rfl).2.1 (by decide)).1⟩

/-- C4: for every submission validated with the consensus method against an
existing non-golden assignment, the score is 0.8 × 0.5 = 0.4 with issue
`suspiciously_fast_response` when the time spent is below 500 ms,
0.8 × 0.9 = 0.72 with issue `slow_response` above 30000 ms, and 0.8 with no
issues for every time in between; confidence is `"medium"`. -/
theorem consensus_timing_penalties (rec : TaskRecord) (vid resp : String) (t : Int)
    (hg : rec.golden_set = false) :
    (t < 500 →
      (validate_label_quality (some rec) vid resp t "consensus").quality_score = 0.4 ∧
      (validate_label_quality (some rec) vid resp t "consensus").issues_detected =
        ["suspiciously_fast_response"]) ∧
    (30000 < t →
      (validate_label_quality (some rec) vid resp t "consensus").quality_score = 0.72 ∧
      (validate_label_quality (some rec) vid resp t "consensus").issues_detected =
        ["slow_response"]) ∧
    (500 ≤ t → t ≤ 30000 →
      (validate_label_quality (some rec) vid resp t "consensus").quality_score = 0.8 ∧
      (validate_label_quality (some rec) vid resp t "consensus").issues_detected = []) ∧
    (validate_label_quality (some rec) vid resp t "consensus").confidence = "medium" := by
  have hb : (("consensus" : String) == "golden_set") = false := by decide
  refine ⟨?_, ?_, ?_, ?_⟩
  · intro h
    constructor <;> · simp [validate_label_quality, hb, h]; try norm_num
  · intro h
    have h2 : ¬ (t < 500) := by omega
    constructor <;> · simp [validate_label_quality, hb, h, h2]; try norm_num
  · intro h1 h2
    have h3 : ¬ (t < 500) := by omega
    have h4 : ¬ (30000 < t) := by omega
    refine ⟨?_, ?_⟩ <;> simp [validate_label_quality, hb, h3, h4]
  · simp [validate_label_quality, hb]

/-- Witness for C4 at 400 ms, 40000 ms and 5000 ms. -/
theorem consensus_timing_penalties_witness :
    (validate_label_quality (some ⟨"t1", "vqa", false, none, "p1", "s1", 2⟩)
      "v1" "Red" 400 "consensus").quality_score = 0.4 ∧
    (validate_label_quality (some ⟨"t1", "vqa", false, none, "p1", "s1", 2⟩)
      "v1" "Red" 40000 "consensus").quality_score = 0.72 ∧
    (validate_label_quality (some ⟨"t1", "vqa", false, none, "p1", "s1", 2⟩)
      "v1" "Red" 5000 "consensus").quality_score = 0.8 :=
  ⟨((consensus_timing_penalties ⟨"t1", "vqa", false, none, "p1", "s1", 2⟩
      "v1" "Red" 400 rfl).1 (by norm_num)).1,
   ((consensus_timing_penalties ⟨"t1", "vqa", false, none, "p1", "s1", 2⟩
      "v1" "Red" 40000 rfl).2.1 (by norm_num)).1,
   ((consensus_timing_penalties ⟨"t1", "vqa", false, none, "p1", "s1", 2⟩
      "v1" "Red" 5000 rfl).2.2.1 (by norm_num) (by norm_num)).1⟩

/-- C2: for every selection where the user profile exists, the returned task
is golden-set iff the profile's expertise level is `"beginner"` and the
stored tasks-completed counter is `"0"`; the stored assignment record agrees;
a fresh session starts at expertise `"beginner"` with counter `"0"`; and
after the counter has been incremented (`INCR "0" = "1"`), the next selection
is not golden-set, all else equal. -/
theorem golden_set_injection_rule (p : ProfileData) (e : String) (tc : Option String)
    (tid sid pid : String) (lang cat prev : Option String)
    (he : p.expertise_level = some e) :
    (∃ t r, get_next_task (some p) tc tid sid pid lang cat prev = some (t, r) ∧
       (t.golden_set = true ↔ (e = "beginner" ∧ tc = some "0")) ∧
       r.golden_set = t.golden_set) ∧
    (∀ cl dev, (initialize_user_session cl dev).1.expertise_level = "beginner" ∧
       (initialize_user_session cl dev).2 = "0") ∧
    incr_tasks_completed 0 = "1" ∧
    (get_next_task (some p) (some (incr_tasks_completed 0)) tid sid pid lang cat prev).map
      (fun x => x.1.golden_set) = some false := by
  have h1 : incr_tasks_completed 0 = "1" := by decide
  refine ⟨⟨_, _, rfl, ?_, rfl⟩, fun cl dev => ⟨rfl, rfl⟩, h1, ?_⟩
  · simp [he, Bool.and_eq_true, beq_iff_eq]
  · simp [get_next_task, he, h1]

/-- Witness for C2 at a fresh beginner profile with counter `"0"`. -/
theorem golden_set_injection_rule_witness :
    ∃ t r, get_next_task (some ⟨some "en", some "beginner", some 2⟩) (some "0")
        "t1" "s1" "p1" none none none = some (t, r) ∧
      (t.golden_set = true ↔ ("beginner" = "beginner" ∧
        (some "0" : Option String) = some "0")) ∧
      r.golden_set = t.golden_set :=
  (golden_set_injection_rule ⟨some "en", some "beginner", some 2⟩ "beginner" (some "0")
    "t1" "s1" "p1" none none none rfl).1

/-- C9: for every selection where the user profile exists, a task is returned
(never `none`) regardless of the language and category filters, and the
task's complexity level is `min max_complexity 3` for the profile's
`max_complexity` (default 2 when absent). -/
theorem get_next_task_always_returns (p : ProfileData) (tc : Option String)
    (tid sid pid : String) (lang cat prev : Option String) :
    (∃ t r, get_next_task (some p) tc tid sid pid lang cat prev = some (t, r) ∧
       t.complexity_level = min (p.max_complexity.getD 2) 3) ∧
    (∀ m, p.max_complexity = some m →
      (get_next_task (some p) tc tid sid pid lang cat prev).map
        (fun x => x.1.complexity_level) = some (min m 3)) := by
  constructor
  · exact ⟨_, _, rfl, rfl⟩
  · intro m hm
    simp [get_next_task, hm]

/-- Witness for C9 at an expert profile with `max_complexity = 5`. -/
theorem get_next_task_always_returns_witness :
    (get_next_task (some ⟨some "en", some "expert", some 5⟩) (some "3")
      "t1" "s1" "p1" none none none).map (fun x => x.1.complexity_level) =
      some (min 5 3) :=
  (get_next_task_always_returns ⟨some "en", some "expert", some 5⟩ (some "3")
    "t1" "s1" "p1" none none none).2 5 rfl

/-- C10: for every batch request with count `n`, the returned batch contains
exactly `n` tasks (nonempty whenever `n ≥ 1`, so the router's empty-batch
branch is unreachable for the allowed counts), each with complexity level 2
when the complexity filter is `"medium"`, 3 when `"high"`, and 1 otherwise. -/
theorem get_task_batch_exact_count (pid : String) (n : Nat) (lang cat compl : Option String) :
    (get_task_batch pid n lang cat compl).length = n ∧
    (1 ≤ n → get_task_batch pid n lang cat compl ≠ []) ∧
    (∀ ts2 ∈ get_task_batch pid n lang cat compl,
      ts2.complexity_level =
        if compl = some "medium" then 2 else if compl = some "high" then 3 else 1) := by
  refine ⟨?_, ?_, ?_⟩
  · simp [get_task_batch]
  · intro hn h
    have hl : (get_task_batch pid n lang cat compl).length = n := by simp [get_task_batch]
    rw [h] at hl
    simp at hl
    omega
  · intro ts2 hmem
    simp only [get_task_batch, List.mem_map] at hmem
    obtain ⟨i, hi, rfl⟩ := hmem
    simp [beq_iff_eq]

/-- Witness for C10 at `n = 3` with the `"medium"` complexity filter. -/
theorem get_task_batch_exact_count_witness :
    get_task_batch "pub1" 3 none none (some "medium") ≠ [] :=
  (get_task_batch_exact_count "pub1" 3 none none (some "medium")).2.1 (by norm_num)

/-! ### Sliding-window run analysis (claim C1) -/

lemma runStore_cons (L W t : Nat) (ts : List Nat) (S : Finset Nat) :
    runStore L W (t :: ts) S = runStore L W ts (insert t (trimWindow S W t)) :=
  rfl

/-- After running the limiter over strictly increasing timestamps `p` (all
below `now`, all above the pre-existing members of `S`), the number of
members surviving a trim at `now` is the surviving part of `S` plus the
number of elements of `p` inside the trailing window of `now`. -/
lemma runStore_count (L W : Nat) :
    ∀ p : List Nat, p.Pairwise (· < ·) →
      ∀ S : Finset Nat, (∀ s ∈ S, ∀ x ∈ p, s < x) →
        ∀ now : Nat, (∀ x ∈ p, x < now) →
          ((runStore L W p S).filter (fun s => now < s + W)).card
            = (S.filter (fun s => now < s + W)).card
              + p.countP (fun s => decide (now < s + W)) := by
  intro p
  induction p with
  | nil =>
    intro _ S _ now _
    simp [runStore]
  | cons t rest ih =>
    intro hp S hS now hnow
    rw [List.pairwise_cons] at hp
    obtain ⟨ht, hrest⟩ := hp
    have htnow : t < now := hnow t (List.mem_cons_self t rest)
    have hS2 : ∀ s ∈ insert t (trimWindow S W t), ∀ x ∈ rest, s < x := by
      intro s hs x hx
      rcases Finset.mem_insert.mp hs with h | h
      · exact h ▸ ht x hx
      · exact hS s (Finset.mem_filter.mp h).1 x (List.mem_cons_of_mem t hx)
    have hnow2 : ∀ x ∈ rest, x < now := fun x hx => hnow x (List.mem_cons_of_mem t hx)
    rw [runStore_cons, ih hrest _ hS2 now hnow2]
    have hfilter : (trimWindow S W t).filter (fun s => now < s + W)
        = S.filter (fun s => now < s + W) := by
      unfold trimWindow
      rw [Finset.filter_filter]
      apply Finset.filter_congr
      intro x _
      constructor
      · exact fun h => h.2
      · exact fun h => ⟨lt_trans htnow h, h⟩
    have htS : t ∉ S := fun h => lt_irrefl t (hS t h t (List.mem_cons_self t rest))
    by_cases hpt : now < t + W
    · rw [Finset.filter_insert, if_pos hpt, hfilter, Finset.card_insert_of_not_mem, List.countP_cons]
      · simp [hpt]
        omega
      · intro hmem
        exact htS (Finset.mem_filter.mp hmem).1
    · rw [Finset.filter_insert, if_neg hpt, hfilter, List.countP_cons]
      simp [hpt]

/-- Characterization of one call in a run over strictly increasing
timestamps starting from an empty key: the `i`-th call is marked rate limited
exactly when at least `limit` of the earlier timestamps (allowed or rejected)
lie inside the trailing window of the current timestamp. -/
lemma step_is_limited (L W : Nat) (ts : List Nat) (hts : ts.Pairwise (· < ·))
    (i : Nat) (h : i < ts.length) :
    (stepResult L W ts i h).1.is_rate_limited
      = decide (L ≤ (ts.take i).countP (fun s => decide (ts.get ⟨i, h⟩ < s + W))) := by
  have hpair : (ts.take i).Pairwise (· < ·) := hts.sublist (List.take_sublist i ts)
  have hSe : ∀ s ∈ (∅ : Finset Nat), ∀ x ∈ ts.take i, s < x := by
    intro s hs
    exact absurd hs (Finset.not_mem_empty s)
  have hnow : ∀ x ∈ ts.take i, x < ts.get ⟨i, h⟩ := by
    intro x hx
    obtain ⟨n, hn⟩ := List.mem_iff_get.mp hx
    have hlen : n.val < i := by
      have := n.isLt
      simp [List.length_take] at this
      omega
    have hget : (ts.take i).get n = ts.get ⟨n.val, lt_of_lt_of_le hlen (le_of_lt h)⟩ := by
      simp [List.getElem_take]
    rw [← hn, hget]
    exact List.pairwise_iff_get.mp hts _ _ hlen
  unfold stepResult
  rw [core_limited]
  have hcard : (trimWindow (runStore L W (ts.take i) ∅) W (ts.get ⟨i, h⟩)).card
      = (ts.take i).countP (fun s => decide (ts.get ⟨i, h⟩ < s + W)) := by
    unfold trimWindow
    rw [runStore_count L W (ts.take i) hpair ∅ hSe (ts.get ⟨i, h⟩) hnow]
    simp
  rw [hcard]

/-- C1 (amended to call sequences with strictly increasing integer
timestamps; the store keys members by the integer second, so same-second
calls collapse into a single member and the original per-request count fails,
see the counterexample): starting from an empty key, (1) the `i`-th call is
rejected iff at least `L` earlier request timestamps (allowed or rejected)
lie in the trailing `W`-second window; (2) a membership record for the
current request is always added, even when the request is rejected; (3) the
first `L` requests are always allowed; (4) an `(L+1)`-th request within `W`
seconds of the first is rejected; (5) once `W` seconds have passed since the
first request, a slot is freed and the `(L+1)`-th request is allowed again. -/
theorem sliding_window_rate_limit (L W : Nat) (ts : List Nat)
    (hts : ts.Pairwise (· < ·)) (hL : 0 < L) :
    (∀ i (h : i < ts.length),
      ((stepResult L W ts i h).1.is_rate_limited = true ↔
        L ≤ (ts.take i).countP (fun s => decide (ts.get ⟨i, h⟩ < s + W)))) ∧
    (∀ i (h : i < ts.length), ts.get ⟨i, h⟩ ∈ (stepResult L W ts i h).2) ∧
    (∀ i (h : i < ts.length), i < L → (stepResult L W ts i h).1.is_rate_limited = false) ∧
    (∀ h : L < ts.length,
      ts.get ⟨L, h⟩ < ts.get ⟨0, Nat.lt_of_le_of_lt (Nat.zero_le L) h⟩ + W →
      (stepResult L W ts L h).1.is_rate_limited = true) ∧
    (∀ h : L < ts.length,
      ts.get ⟨0, Nat.lt_of_le_of_lt (Nat.zero_le L) h⟩ + W ≤ ts.get ⟨L, h⟩ →
      (stepResult L W ts L h).1.is_rate_limited = false) := by
  refine ⟨?_, ?_, ?_, ?_, ?_⟩
  · intro i h
    rw [step_is_limited L W ts hts i h]
    exact decide_eq_true_iff
  · intro i h
    unfold stepResult
    rw [core_snd]
    exact Finset.mem_insert_self _ _
  · intro i h hiL
    rw [step_is_limited L W ts hts i h]
    have h1 : (ts.take i).countP (fun s => decide (ts.get ⟨i, h⟩ < s + W)) ≤ i :=
      le_trans (List.countP_le_length _) (by rw [List.length_take]; omega)
    exact decide_eq_false (by omega)
  · intro h hspan
    rw [step_is_limited L W ts hts L h]
    apply decide_eq_true
    cases ts with
    | nil => simp at h
    | cons a rest =>
      cases L with
      | zero => omega
      | succ K =>
        have hspan2 : (a :: rest).get ⟨K + 1, h⟩ < a + W := hspan
        have hmem : ∀ x ∈ (a :: rest).take (K + 1),
            decide ((a :: rest).get ⟨K + 1, h⟩ < x + W) = true := by
          intro x hx
          rw [List.take_succ_cons] at hx
          rcases List.mem_cons.mp hx with hxa | hxr
          · subst hxa
            exact decide_eq_true hspan2
          · have hax : a < x :=
              (List.pairwise_cons.mp hts).1 x (List.mem_of_mem_take hxr)
            exact decide_eq_true (lt_trans hspan2 (by omega))
        rw [List.countP_eq_length.mpr hmem, List.length_take]
        simp at h
        omega
  · intro h hfree
    rw [step_is_limited L W ts hts L h]
    apply decide_eq_false
    cases ts with
    | nil => simp at h
    | cons a rest =>
      cases L with
      | zero => omega
      | succ K =>
        have hfree2 : a + W ≤ (a :: rest).get ⟨K + 1, h⟩ := hfree
        rw [List.take_succ_cons, List.countP_cons]
        have hfa : decide ((a :: rest).get ⟨K + 1, h⟩ < a + W) = false :=
          decide_eq_false (by omega)
        rw [hfa]
        have h1 : (rest.take K).countP
            (fun s => decide ((a :: rest).get ⟨K + 1, h⟩ < s + W)) ≤ K :=
          le_trans (List.countP_le_length _) (by rw [List.length_take]; omega)
        have hz : (if (false = true) then 1 else 0 : Nat) = 0 := rfl
        rw [hz]
        omega

/-- C1 counterexample to the claim as stated: with limit 2 and window 10,
three check calls all timestamped at second 100 (all inside one trailing
10-second span) are all allowed — the third, the `(L+1)`-th request of the
span, is not rejected, because the member set keyed by `str(now)` collapses
the same-second requests into one member. -/
theorem sliding_window_counterexample :
    (stepResult 2 10 [100, 100, 100] 0 (by norm_num)).1.is_rate_limited = false ∧
    (stepResult 2 10 [100, 100, 100] 1 (by norm_num)).1.is_rate_limited = false ∧
    (stepResult 2 10 [100, 100, 100] 2 (by norm_num)).1.is_rate_limited = false := by
  refine ⟨?_, ?_, ?_⟩ <;> decide

/-- Witness for C1 at limit 2, window 10, timestamps 0, 1, 2: the third
request, one second after the second one, is rejected. -/
theorem sliding_window_rate_limit_witness :
    (stepResult 2 10 [0, 1, 2] 2 (by norm_num)).1.is_rate_limited = true :=
  (sliding_window_rate_limit 2 10 [0, 1, 2] (by decide) (by norm_num)).2.2.2.1
    (by norm_num) (by decide)

end HotLabel
